import Mathlib

set_option maxRecDepth 8000

/-!
Shallow embedding of the Applio TTS FastAPI layer (src/api/app.py) and proofs
about its request validation, text sanitation, temp-file handling and response
shaping.  The filesystem is modelled as a predicate `String → Bool`, the
external synthesis pipeline (`run_tts_script`) and the other collaborators as
fields of an `Env` record, and each handler returns an `Outcome` carrying the
HTTP-level result, the final filesystem, the list of pipeline invocations and
the list of attempted file removals.
-/

/-- Characters removed by the regex in `clean_text` (app.py line 83):
`0x00`-`0x08`, `0x0B`, `0x0C`, `0x0E`-`0x1F` and `0x7F`. -/
def isRemovedCtrl (c : Char) : Bool :=
  (c.toNat ≤ 0x08) || c.toNat == 0x0B || c.toNat == 0x0C ||
  (0x0E ≤ c.toNat && c.toNat ≤ 0x1F) || c.toNat == 0x7F

/-- Left-to-right non-overlapping replacement of the two-character sequence
CR LF by LF, i.e. Python `.replace('\r\n', '\n')` (app.py line 85). -/
def replaceCRLF : List Char → List Char
  | [] => []
  | '\r' :: '\n' :: rest => '\n' :: replaceCRLF rest
  | c :: rest => c :: replaceCRLF rest

/-- Replacement of every remaining CR by LF, i.e. Python `.replace('\r', '\n')`
(app.py line 85). -/
def replaceCR (l : List Char) : List Char :=
  l.map (fun c => if c = '\r' then '\n' else c)

/-- The character class stripped by Python `str.strip()` with no argument:
the Unicode whitespace code points. -/
def pyIsSpace (c : Char) : Bool :=
  c.toNat == 0x20 || (0x09 ≤ c.toNat && c.toNat ≤ 0x0D) ||
  (0x1C ≤ c.toNat && c.toNat ≤ 0x1F) ||
  c.toNat == 0x85 || c.toNat == 0xA0 || c.toNat == 0x1680 ||
  (0x2000 ≤ c.toNat && c.toNat ≤ 0x200A) || c.toNat == 0x2028 ||
  c.toNat == 0x2029 || c.toNat == 0x202F || c.toNat == 0x205F ||
  c.toNat == 0x3000

/-- Python `str.strip()` on a character list: drop Unicode whitespace from
both ends (app.py line 86). -/
def pyStrip (l : List Char) : List Char :=
  ((l.dropWhile pyIsSpace).reverse.dropWhile pyIsSpace).reverse

/-- Body of `clean_text` (app.py lines 77-86) on a character list: filter the
control characters, normalize CR LF then bare CR to LF, strip both ends. -/
def cleanTextList (l : List Char) : List Char :=
  pyStrip (replaceCR (replaceCRLF (l.filter (fun c => !isRemovedCtrl c))))

/-- The Text Sanitizer `clean_text` (app.py lines 77-86). -/
def clean_text (s : String) : String :=
  ⟨cleanTextList s.data⟩

/-- Python `str.startswith` on plain strings, at character level. -/
def strStartsWith (s pre : String) : Bool :=
  pre.data.isPrefixOf s.data

/-- Python `str.endswith` for one suffix, at character level. -/
def strEndsWith (s suf : String) : Bool :=
  suf.data.isSuffixOf s.data

/-- Python `str.upper` restricted to ASCII case mapping. -/
def strUpper (s : String) : String :=
  ⟨s.data.map Char.toUpper⟩

/-- Python `str.lower` restricted to ASCII case mapping. -/
def strLower (s : String) : String :=
  ⟨s.data.map Char.toLower⟩

/-- Python truthiness of an optional string: `None` and the empty string are
falsy, any other string is truthy. -/
def truthyS : Option String → Bool
  | none => false
  | some s => s != ""

/-- `os.path.basename`: the part of the path after the last slash. -/
def basename (s : String) : String :=
  ⟨(s.data.reverse.takeWhile (fun c => c != '/')).reverse⟩

/-- `os.path.join` (also `pathlib` `/`) for a directory and one component: an
absolute second component replaces the first, otherwise the two are joined
with a single slash. -/
def pathJoin (d f : String) : String :=
  if strStartsWith f "/" then f
  else if d = "" || strEndsWith d "/" then d ++ f
  else d ++ "/" ++ f

/-- Splitting of a character list on one separator character, mirroring
Python `str.split(sep)`: `splitChar sep l` always returns at least one
(possibly empty) chunk. -/
def splitChar (sep : Char) : List Char → List (List Char)
  | [] => [[]]
  | c :: rest =>
    if c = sep then [] :: splitChar sep rest
    else
      match splitChar sep rest with
      | [] => [[c]]
      | h :: t => (c :: h) :: t

/-- Resolution of `.` and `..` segments of a slash-separated path, used to
talk about which real file a constructed path denotes. -/
def resolveSegs (s : String) : List String :=
  ((splitChar '/' s.data).map (fun l => (⟨l⟩ : String))).foldl
    (fun acc seg =>
      if seg = "" || seg = "." then acc
      else if seg = ".." then acc.dropLast
      else acc ++ [seg]) []

/-- Whether the path `target` stays inside the directory `dir` once `.` and
`..` segments are resolved. -/
def staysUnder (dir target : String) : Bool :=
  (resolveSegs dir).isPrefixOf (resolveSegs target)

/-- The simplified request shape `SimpleTTSRequest` (app.py lines 89-104). -/
structure SimpleTTSRequest where
  text : String
  tts_voice : String
  model_path : String
  index_path : Option String
  tts_rate : Int
  return_base64 : Bool
  output_format : String
deriving DecidableEq

/-- The full request shape `TTSInferenceRequest` (app.py lines 107-139). -/
structure TTSInferenceRequest where
  text : String
  tts_voice : String
  model_path : String
  index_path : Option String
  tts_rate : Int
  pitch : Int
  index_rate : ℚ
  volume_envelope : ℚ
  protect : ℚ
  f0_method : String
  split_audio : Bool
  f0_autotune : Bool
  f0_autotune_strength : ℚ
  proposed_pitch : Bool
  proposed_pitch_threshold : ℚ
  clean_audio : Bool
  clean_strength : ℚ
  export_format : String
  embedder_model : String
  embedder_model_custom : Option String
  sid : Nat
  return_base64 : Bool
  output_filename : Option String
deriving DecidableEq

/-- The response shape `TTSInferenceResponse` (app.py lines 142-155). -/
structure TTSResponse where
  success : Bool
  message : String
  text : String
  tts_voice : String
  model_path : String
  index_path : Option String
  output_file : Option String
  output_path : Option String
  base64 : Option String
  format : Option String
  size_kb : ℚ
  duration_seconds : Option ℚ
deriving DecidableEq

/-- An HTTPException as raised by the handlers: status code plus detail. -/
structure HTTPError where
  status : Nat
  detail : String
deriving DecidableEq

deriving instance DecidableEq for Except

/-- Argument record of the call to the collaborator `run_tts_script`
(app.py lines 584-609). -/
structure RunArgs where
  tts_file : String
  tts_text : String
  tts_voice : String
  tts_rate : Int
  pitch : Int
  index_rate : ℚ
  volume_envelope : ℚ
  protect : ℚ
  f0_method : String
  output_tts_path : String
  output_rvc_path : String
  pth_path : String
  index_path : String
  split_audio : Bool
  f0_autotune : Bool
  f0_autotune_strength : ℚ
  proposed_pitch : Bool
  proposed_pitch_threshold : ℚ
  clean_audio : Bool
  clean_strength : ℚ
  export_format : String
  embedder_model : String
  embedder_model_custom : Option String
  sid : Nat
deriving DecidableEq

/-- Environment of one request: `OUTPUT_DIR`, the request-scoped timestamp,
the filesystem at the start of the request, and the collaborators
(`match_index`, the voice catalog short names, `run_tts_script`, file size,
`librosa` duration, base64 file content, and whether `os.remove` on a given
existing path succeeds).  `runTts` receives the filesystem and returns either
an error (a raised exception, as a message) or the returned
`(message, output_file)` pair, together with the filesystem it leaves behind. -/
structure Env where
  outDir : String
  timestamp : String
  fs0 : String → Bool
  matchIndex : String → Option String
  voiceNames : List String
  runTts : RunArgs → (String → Bool) → Except String (String × String) × (String → Bool)
  fileSize : String → Nat
  durationOf : String → Option ℚ
  fileB64 : String → String
  removeOk : String → Bool

/-- Outcome of one handler run: the HTTP-level result, the final filesystem,
the pipeline invocations made, and the paths on which `os.remove` was
attempted, in order. -/
structure Outcome where
  result : Except HTTPError TTSResponse
  fs : String → Bool
  synthCalls : List RunArgs
  removes : List String

/-- Index path after the auto-detection step (app.py lines 524-525): a falsy
`index_path` is replaced by the result of `match_index`. -/
def resolvedIdx (env : Env) (req : TTSInferenceRequest) : Option String :=
  if truthyS req.index_path then req.index_path else env.matchIndex req.model_path

/-- Validation phase of `tts_inference` (app.py lines 516-547): model path
existence, index auto-detection and existence, voice membership, embedder
configuration, in this order. -/
def validate (env : Env) (req : TTSInferenceRequest) :
    Except HTTPError (Option String) :=
  if !env.fs0 req.model_path then
    .error { status := 404, detail := "Modelo não encontrado: " ++ req.model_path }
  else if truthyS (resolvedIdx env req) && !env.fs0 ((resolvedIdx env req).getD "") then
    .error { status := 404
             detail := "Arquivo index não encontrado: " ++ (resolvedIdx env req).getD "" }
  else if !env.voiceNames.contains req.tts_voice then
    .error { status := 404
             detail := "Voz TTS não encontrada: " ++ req.tts_voice ++
               ". Use /voices para listar vozes disponíveis." }
  else if req.embedder_model == "custom" && !truthyS req.embedder_model_custom then
    .error { status := 400
             detail := "embedder_model_custom é obrigatório quando embedder_model=\x27custom\x27" }
  else .ok (resolvedIdx env req)

/-- Intermediate TTS file path (app.py lines 553-556). -/
def ttsOutputPath (env : Env) : String :=
  pathJoin env.outDir ("tts_output_" ++ env.timestamp ++ ".wav")

/-- Recognized audio extensions checked before appending the export format
(app.py line 561). -/
def hasKnownExt (f : String) : Bool :=
  strEndsWith f ".wav" || strEndsWith f ".mp3" || strEndsWith f ".flac" ||
  strEndsWith f ".ogg" || strEndsWith f ".m4a"

/-- Final converted-audio file name (app.py lines 559-564): a truthy
caller-supplied name, with the export format extension appended when no
recognized extension is present, otherwise a timestamp-derived name. -/
def rvcFilename (req : TTSInferenceRequest) (ts : String) : String :=
  if truthyS req.output_filename then
    let f := req.output_filename.getD ""
    if hasKnownExt f then f else f ++ "." ++ strLower req.export_format
  else
    "tts_rvc_output_" ++ ts ++ "." ++ strLower req.export_format

/-- Argument record handed to `run_tts_script` (app.py lines 584-609). -/
def mkRunArgs (env : Env) (req : TTSInferenceRequest) (idx : Option String) :
    RunArgs :=
  { tts_file := ""
    tts_text := req.text
    tts_voice := req.tts_voice
    tts_rate := req.tts_rate
    pitch := req.pitch
    index_rate := req.index_rate
    volume_envelope := req.volume_envelope
    protect := req.protect
    f0_method := req.f0_method
    output_tts_path := ttsOutputPath env
    output_rvc_path := pathJoin env.outDir (rvcFilename req env.timestamp)
    pth_path := req.model_path
    index_path := idx.getD ""
    split_audio := req.split_audio
    f0_autotune := req.f0_autotune
    f0_autotune_strength := req.f0_autotune_strength
    proposed_pitch := req.proposed_pitch
    proposed_pitch_threshold := req.proposed_pitch_threshold
    clean_audio := req.clean_audio
    clean_strength := req.clean_strength
    export_format := req.export_format
    embedder_model := req.embedder_model
    embedder_model_custom := req.embedder_model_custom
    sid := req.sid }

/-- Filesystem after a successful `os.remove p`. -/
def removeFile (fs : String → Bool) (p : String) : String → Bool :=
  fun q => if q = p then false else fs q

/-- Best-effort cleanup of the intermediate TTS file (app.py lines 649-654):
`os.remove` is attempted only when the file exists, and a failing remove is
swallowed.  Returns the resulting filesystem and the attempted removes. -/
def cleanupIntermediate (removeOk fs : String → Bool) (p : String) :
    (String → Bool) × List String :=
  if fs p then
    if removeOk p then (removeFile fs p, [p]) else (fs, [p])
  else (fs, [])

/-- Post-synthesis phase of `tts_inference` (app.py lines 623-669): file size
and duration, optional base64 encoding with deletion of the final file (a
failed delete is swallowed and leaves the Python local `output_file` set),
intermediate cleanup, and response shaping. -/
def finishRequest (env : Env) (req : TTSInferenceRequest) (idx : Option String)
    (args : RunArgs) (fs1 : String → Bool) (msg out : String) : Outcome :=
  let ttsP := ttsOutputPath env
  let b64a : Option String := if req.return_base64 then some (env.fileB64 out) else none
  let removed : Bool := req.return_base64 && fs1 out && env.removeOk out
  let ofOpt : Option String := if removed then none else some out
  let fs2 : String → Bool := if removed then removeFile fs1 out else fs1
  let rem1 : List String := if req.return_base64 then [out] else []
  let cu := cleanupIntermediate env.removeOk fs2 ttsP
  { result := .ok
      { success := true
        message := if msg = "" then "✅ Áudio gerado com sucesso" else msg
        text := req.text
        tts_voice := req.tts_voice
        model_path := req.model_path
        index_path := idx
        output_file := if truthyS ofOpt then some (basename (ofOpt.getD "")) else none
        output_path := if truthyS ofOpt && !req.return_base64 then ofOpt else none
        base64 := b64a
        format := if req.return_base64 then some (strUpper req.export_format) else none
        size_kb := (env.fileSize out : ℚ) / 1024
        duration_seconds := env.durationOf out }
    fs := cu.1
    synthCalls := [args]
    removes := rem1 ++ cu.2 }

/-- The `/tts/inference` handler `tts_inference` (app.py lines 499-680). -/
def tts_inference (env : Env) (req : TTSInferenceRequest) : Outcome :=
  match validate env req with
  | .error e => { result := .error e, fs := env.fs0, synthCalls := [], removes := [] }
  | .ok idx =>
    let args := mkRunArgs env req idx
    match env.runTts args env.fs0 with
    | (.error e, fs1) =>
      { result := .error { status := 500, detail := "Erro ao gerar TTS: " ++ e }
        fs := fs1, synthCalls := [args], removes := [] }
    | (.ok (msg, out), fs1) =>
      if fs1 out then finishRequest env req idx args fs1 msg out
      else
        { result := .error { status := 500
                             detail := "Erro ao gerar áudio: arquivo não foi criado" }
          fs := fs1, synthCalls := [args], removes := [] }

/-- Valid output formats of the simplified endpoint (app.py line 460). -/
def validFormats : List String := ["WAV", "MP3", "FLAC", "OGG", "M4A"]

/-- Pre-call phase of `tts_generate_simple` (app.py lines 451-494): sanitize
the text, reject an empty sanitized text, validate the upper-cased output
format, and project the simplified request onto the full shape with the fixed
defaults. -/
def normalizeSimple (req : SimpleTTSRequest) :
    Except HTTPError TTSInferenceRequest :=
  let cleaned := clean_text req.text
  if cleaned = "" then
    .error { status := 400, detail := "Texto inválido ou vazio após limpeza" }
  else
    let fmt := strUpper req.output_format
    if !validFormats.contains fmt then
      .error { status := 400
               detail := "Formato inválido: " ++ fmt ++
                 ". Formatos válidos: WAV, MP3, FLAC, OGG, M4A" }
    else
      .ok { text := cleaned
            tts_voice := req.tts_voice
            model_path := req.model_path
            index_path := req.index_path
            tts_rate := req.tts_rate
            pitch := 0
            index_rate := 0.75
            volume_envelope := 1.0
            protect := 0.5
            f0_method := "rmvpe"
            split_audio := false
            f0_autotune := false
            f0_autotune_strength := 1.0
            proposed_pitch := false
            proposed_pitch_threshold := 155.0
            clean_audio := false
            clean_strength := 0.5
            export_format := fmt
            embedder_model := "contentvec"
            embedder_model_custom := none
            sid := 0
            return_base64 := true
            output_filename := none }

/-- The `/tts/generate` handler `tts_generate_simple` (app.py lines 424-496). -/
def tts_generate_simple (env : Env) (req : SimpleTTSRequest) : Outcome :=
  match normalizeSimple req with
  | .error e => { result := .error e, fs := env.fs0, synthCalls := [], removes := [] }
  | .ok full => tts_inference env full

/-- One record of the voice catalog as used by the handlers. -/
structure VoiceRec where
  shortName : String
  name : String
  locale : String
  gender : String
deriving DecidableEq

/-- The response item `VoiceInfo` (app.py lines 158-164). -/
structure VoiceInfo where
  short_name : String
  name : String
  locale : String
  gender : String
  language : String
deriving DecidableEq

/-- The response shape `VoicesListResponse` (app.py lines 167-172). -/
structure VoicesListResponse where
  success : Bool
  voices : List VoiceInfo
  total : Nat
  language_filter : Option String
deriving DecidableEq

/-- Python substring membership `needle in hay` on strings. -/
def strContains (hay needle : String) : Bool :=
  (hay.data.tails).any (fun t => needle.data.isPrefixOf t)

/-- Conversion of a catalog record to a `VoiceInfo` (app.py lines 297-304):
the `language` field is the part of the locale before the first dash when a
dash is present, the whole locale otherwise. -/
def toVoiceInfo (v : VoiceRec) : VoiceInfo :=
  { short_name := v.shortName
    name := v.name
    locale := v.locale
    gender := v.gender
    language := if strContains v.locale "-" then (⟨(splitChar '-' v.locale.data).headD []⟩ : String)
                else v.locale }

/-- The `/voices` handler `list_voices` (app.py lines 272-311): a truthy
`language` parameter filters by case-insensitive substring match against each
record's `ShortName`. -/
def list_voices (voicesData : List VoiceRec) (language : Option String) :
    VoicesListResponse :=
  let filtered : List VoiceRec :=
    match language with
    | some s =>
      if s ≠ "" then
        voicesData.filter (fun v => strContains (strLower v.shortName) (strLower s))
      else voicesData
    | none => voicesData
  let voicesList := filtered.map toVoiceInfo
  { success := true
    voices := voicesList
    total := voicesList.length
    language_filter := language }

/-- Successful download response: path served, download filename, media type. -/
structure FileResp where
  path : String
  filename : String
  media_type : String
deriving DecidableEq

/-- The `/tts/download/{filename}` handler `download_audio`
(app.py lines 683-706): serve `OUTPUT_DIR / filename` when it exists,
always with media type `audio/wav`, else 404. -/
def download_audio (outDir : String) (fs : String → Bool) (filename : String) :
    Except HTTPError FileResp :=
  let filePath := pathJoin outDir filename
  if !fs filePath then
    .error { status := 404, detail := "Arquivo não encontrado: " ++ filename }
  else
    .ok { path := filePath, filename := filename, media_type := "audio/wav" }

/-- Successful payload of a handler result, `none` on an HTTP error. -/
def okPart : Except HTTPError TTSResponse → Option TTSResponse
  | .ok r => some r
  | .error _ => none

/-! ### Concrete requests and environments used in witnesses and counterexamples -/

/-- Baseline full request used to build concrete test requests. -/
def baseReq : TTSInferenceRequest :=
  { text := "hi", tts_voice := "v1", model_path := "m.pth", index_path := some "i.index"
    tts_rate := 0, pitch := 0, index_rate := 0.75, volume_envelope := 1.0, protect := 0.5
    f0_method := "rmvpe", split_audio := false, f0_autotune := false
    f0_autotune_strength := 1.0, proposed_pitch := false, proposed_pitch_threshold := 155.0
    clean_audio := false, clean_strength := 0.5, export_format := "OGG"
    embedder_model := "contentvec", embedder_model_custom := none, sid := 0
    return_base64 := true, output_filename := none }

/-- Baseline environment: model and index files exist, one voice catalogued,
the pipeline succeeds and creates the final and intermediate files, and
removals succeed. -/
def baseEnv : Env :=
  { outDir := "o", timestamp := "T"
    fs0 := fun p => p = "m.pth" || p = "i.index"
    matchIndex := fun _ => none
    voiceNames := ["v1"]
    runTts := fun _ fs =>
      (.ok ("m", "o/f.ogg"), fun q => q = "o/f.ogg" || q = "o/tts_output_T.wav" || fs q)
    fileSize := fun _ => 1024
    durationOf := fun _ => none
    fileB64 := fun _ => "B64"
    removeOk := fun _ => true }

/-- Environment whose filesystem has no file at all. -/
def envNoModel : Env := { baseEnv with fs0 := fun _ => false }

/-- Environment in which every `os.remove` fails. -/
def envNoRemove : Env := { baseEnv with removeOk := fun _ => false }

/-- Environment in which the pipeline call raises after having created the
intermediate TTS file. -/
def envRaise : Env :=
  { baseEnv with
    runTts := fun _ fs => (.error "boom", fun q => q = "o/tts_output_T.wav" || fs q) }

/-- Request selecting the custom embedder without a custom embedder path. -/
def reqCustomEmb : TTSInferenceRequest :=
  { baseReq with embedder_model := "custom", embedder_model_custom := none }

/-- Request whose text contains a control character. -/
def reqCtrlText : TTSInferenceRequest := { baseReq with text := "a\x01b" }

/-- Request asking for a file response instead of base64. -/
def reqFileOut : TTSInferenceRequest := { baseReq with return_base64 := false }

/-- Request supplying an output file name without extension. -/
def reqNamedOut : TTSInferenceRequest := { baseReq with output_filename := some "x" }

/-- Simplified request whose text is whitespace only. -/
def sreqBlank : SimpleTTSRequest :=
  { text := " \t ", tts_voice := "v1", model_path := "m.pth", index_path := none
    tts_rate := 0, return_base64 := true, output_format := "WAV" }

/-- Simplified request with a lowercase valid format. -/
def sreqOgg : SimpleTTSRequest :=
  { text := "hi", tts_voice := "v1", model_path := "m.pth", index_path := some "i.index"
    tts_rate := 0, return_base64 := true, output_format := "ogg" }

/-- Filesystem left behind by the baseline pipeline call. -/
def fs1Base : String → Bool :=
  fun q => q = "o/f.ogg" || q = "o/tts_output_T.wav" || baseEnv.fs0 q

/-- Expected successful response for `baseReq` against `baseEnv`. -/
def rBase : TTSResponse :=
  { success := true, message := "m", text := "hi", tts_voice := "v1"
    model_path := "m.pth", index_path := some "i.index", output_file := none
    output_path := none, base64 := some "B64", format := some "OGG"
    size_kb := ((1024 : ℕ) : ℚ) / 1024, duration_seconds := none }

/-- Filesystem for the download witness: one audio file. -/
def fsDl : String → Bool := fun q => q = "/d/a.ogg"

/-- Catalog record whose ShortName contains the display name of the voice. -/
def vFrancisca : VoiceRec :=
  { shortName := "pt-BR-FranciscaNeural", name := "Francisca", locale := "pt-BR"
    gender := "Female" }

/-! ### Helper lemmas about the Text Sanitizer -/

theorem char_eq_of_toNat {a b : Char} (h : a.toNat = b.toNat) : a = b :=
  Char.ext (UInt32.ext h)

theorem head?_dropWhile {p : Char → Bool} :
    ∀ {l : List Char} {c : Char}, (l.dropWhile p).head? = some c → p c = false := by
  intro l
  induction l with
  | nil => intro c h; simp [List.dropWhile] at h
  | cons a t ih =>
    intro c h
    rw [List.dropWhile_cons] at h
    split at h
    · exact ih h
    · simp at h
      rw [← h]
      simpa using (by assumption : ¬ p a = true)

theorem getLast?_dropWhile {p : Char → Bool} :
    ∀ {l : List Char} {c : Char}, (l.dropWhile p).getLast? = some c →
      l.getLast? = some c := by
  intro l
  induction l with
  | nil => intro c h; simp [List.dropWhile] at h
  | cons a t ih =>
    intro c h
    rw [List.dropWhile_cons] at h
    split at h
    · have ht := ih h
      cases t with
      | nil => simp at ht
      | cons b t2 => rw [List.getLast?_cons_cons]; exact ht
    · exact h

theorem mem_pyStrip {l : List Char} {c : Char} (h : c ∈ pyStrip l) : c ∈ l := by
  unfold pyStrip at h
  rw [List.mem_reverse] at h
  have h2 := (List.dropWhile_sublist pyIsSpace).subset h
  rw [List.mem_reverse] at h2
  exact (List.dropWhile_sublist pyIsSpace).subset h2

theorem mem_replaceCRLF {c : Char} :
    ∀ {l : List Char}, c ∈ replaceCRLF l → c = '\n' ∨ c ∈ l := by
  intro l
  induction l using replaceCRLF.induct with
  | case1 => intro h; simp [replaceCRLF] at h
  | case2 rest ih =>
    intro h
    rw [replaceCRLF] at h
    rcases List.mem_cons.mp h with h1 | h1
    · exact .inl h1
    · rcases ih h1 with h2 | h2
      · exact .inl h2
      · exact .inr (by simp [h2])
  | case3 a rest hne ih =>
    intro h
    rw [replaceCRLF.eq_3 a rest hne] at h
    rcases List.mem_cons.mp h with h1 | h1
    · exact .inr (by simp [h1])
    · rcases ih h1 with h2 | h2
      · exact .inl h2
      · exact .inr (by simp [h2])

/-- A character of the sanitized text is never CR, and either is an LF
introduced by line-ending normalization or survived the control filter. -/
theorem mem_cleanTextList {l : List Char} {c : Char} (h : c ∈ cleanTextList l) :
    c ≠ '\r' ∧ (c = '\n' ∨ isRemovedCtrl c = false) := by
  unfold cleanTextList at h
  have h1 := mem_pyStrip h
  unfold replaceCR at h1
  rcases List.mem_map.mp h1 with ⟨b, hb, hbc⟩
  by_cases hbr : b = '\r'
  · subst hbr
    simp at hbc
    constructor
    · rw [← hbc]; decide
    · left; rw [← hbc]
  · rw [if_neg hbr] at hbc
    subst hbc
    refine ⟨hbr, ?_⟩
    rcases mem_replaceCRLF hb with h2 | h2
    · exact .inl h2
    · right
      have := (List.mem_filter.mp h2).2
      simpa using this

/-- C6: for every text input `clean_text` is a pure total Lean function whose
output has no character in `0x00`-`0x1F` other than LF and TAB, contains no
CR, and carries no leading or trailing whitespace. -/
theorem C6_clean_text_sanitizes (s : String) :
    (∀ c : Char, c ∈ (clean_text s).data →
      (c.toNat < 0x20 → c = '\n' ∨ c = '\t') ∧ c ≠ '\r') ∧
    (∀ c : Char, (clean_text s).data.head? = some c → pyIsSpace c = false) ∧
    (∀ c : Char, (clean_text s).data.getLast? = some c → pyIsSpace c = false) := by
  refine ⟨?_, ?_, ?_⟩
  · intro c hc
    have hm := mem_cleanTextList (show c ∈ cleanTextList s.data from hc)
    refine ⟨?_, hm.1⟩
    intro hlt
    rcases hm.2 with h | h
    · exact .inl h
    · have hr : c.toNat ≠ 13 := fun h13 => hm.1 (char_eq_of_toNat (by rw [h13]; rfl))
      simp [isRemovedCtrl] at h
      have h9or10 : c.toNat = 10 ∨ c.toNat = 9 := by omega
      rcases h9or10 with h' | h'
      · exact .inl (char_eq_of_toNat (by rw [h']; rfl))
      · exact .inr (char_eq_of_toNat (by rw [h']; rfl))
  · intro c hc
    have hc' : (cleanTextList s.data).head? = some c := hc
    unfold cleanTextList pyStrip at hc'
    rw [List.head?_reverse] at hc'
    have h2 := getLast?_dropWhile hc'
    rw [List.getLast?_reverse] at h2
    exact head?_dropWhile h2
  · intro c hc
    have hc' : (cleanTextList s.data).getLast? = some c := hc
    unfold cleanTextList pyStrip at hc'
    rw [List.getLast?_reverse] at hc'
    exact head?_dropWhile hc'

/-- Witness for C6 at the concrete input `"  c\x01  "`. -/
theorem C6_clean_text_sanitizes_witness :
    (('c'.toNat < 0x20 → 'c' = '\n' ∨ 'c' = '\t') ∧ 'c' ≠ '\r') ∧
    pyIsSpace 'c' = false :=
  ⟨(C6_clean_text_sanitizes "  c\x01  ").1 'c' (by decide),
   (C6_clean_text_sanitizes "  c\x01  ").2.1 'c' (by decide)⟩

/-! ### Helper lemmas about the full inference handler -/

theorem validate_ok {env : Env} {req : TTSInferenceRequest} {idx : Option String}
    (h : validate env req = .ok idx) : idx = resolvedIdx env req := by
  unfold validate at h
  split at h
  · exact absurd h (by simp)
  · split at h
    · exact absurd h (by simp)
    · split at h
      · exact absurd h (by simp)
      · split at h
        · exact absurd h (by simp)
        · exact (Except.ok.inj h).symm

theorem validate_error_outcome {env : Env} {req : TTSInferenceRequest} {e : HTTPError}
    (h : validate env req = .error e) :
    tts_inference env req =
      { result := .error e, fs := env.fs0, synthCalls := [], removes := [] } := by
  unfold tts_inference
  rw [h]

theorem ok_inversion {env : Env} {req : TTSInferenceRequest} {r : TTSResponse}
    (h : (tts_inference env req).result = .ok r) :
    ∃ msg out fs1,
      validate env req = .ok (resolvedIdx env req) ∧
      env.runTts (mkRunArgs env req (resolvedIdx env req)) env.fs0 =
        (.ok (msg, out), fs1) ∧
      fs1 out = true ∧
      tts_inference env req =
        finishRequest env req (resolvedIdx env req)
          (mkRunArgs env req (resolvedIdx env req)) fs1 msg out := by
  cases hv : validate env req with
  | error e => rw [validate_error_outcome hv] at h; simp at h
  | ok idx =>
    have hidx := validate_ok hv
    subst hidx
    simp only [tts_inference, hv] at h
    cases hr : env.runTts (mkRunArgs env req (resolvedIdx env req)) env.fs0 with
    | mk res fs1 =>
      rw [hr] at h
      cases res with
      | error e => simp at h
      | ok p =>
        cases p with
        | mk msg out =>
          by_cases hfs : fs1 out = true
          · refine ⟨msg, out, fs1, rfl, rfl, hfs, ?_⟩
            simp [tts_inference, hv, hr, hfs]
          · dsimp only [] at h
            rw [if_neg hfs] at h
            simp at h

theorem synthCalls_mem {env : Env} {req : TTSInferenceRequest} {args : RunArgs}
    (h : args ∈ (tts_inference env req).synthCalls) :
    args = mkRunArgs env req (resolvedIdx env req) := by
  cases hv : validate env req with
  | error e => rw [validate_error_outcome hv] at h; simp at h
  | ok idx =>
    have hidx := validate_ok hv
    subst hidx
    simp only [tts_inference, hv] at h
    cases hr : env.runTts (mkRunArgs env req (resolvedIdx env req)) env.fs0 with
    | mk res fs1 =>
      rw [hr] at h
      cases res with
      | error e => simpa using h
      | ok p =>
        cases p with
        | mk msg out =>
          dsimp only [] at h
          by_cases hfs : fs1 out = true
          · rw [if_pos hfs] at h
            simpa [finishRequest] using h
          · rw [if_neg hfs] at h
            simpa using h

theorem cleanupIntermediate_fs_other {rmok fs : String → Bool} {p q : String}
    (h : q ≠ p) : (cleanupIntermediate rmok fs p).1 q = fs q := by
  unfold cleanupIntermediate
  split
  · split
    · simp [removeFile, h]
    · rfl
  · rfl

theorem cleanupIntermediate_fs_false {rmok fs : String → Bool} {p q : String}
    (h : fs q = false) : (cleanupIntermediate rmok fs p).1 q = false := by
  unfold cleanupIntermediate
  split
  · split
    · simp [removeFile, h]
    · exact h
  · exact h

theorem cleanupIntermediate_removes (rmok fs : String → Bool) (p : String) :
    (cleanupIntermediate rmok fs p).2 = if fs p then [p] else [] := by
  unfold cleanupIntermediate
  split
  · split <;> simp [*]
  · simp [*]

theorem cleanupIntermediate_fs_self (rmok fs : String → Bool) (p : String) :
    (cleanupIntermediate rmok fs p).1 p = (fs p && !rmok p) := by
  unfold cleanupIntermediate
  split
  · split <;> simp [removeFile, *]
  · simp [*]

/-! ### C1: missing model path -/

/-- C1: a synthesize request whose `model_path` does not exist on the
filesystem yields the 404 NotFoundError whose detail string contains the
literal path, before any pipeline call is attempted, with no removal
attempted and the filesystem unchanged. -/
theorem C1_missing_model_404 (env : Env) (req : TTSInferenceRequest)
    (h : env.fs0 req.model_path = false) :
    (tts_inference env req).result =
      .error { status := 404
               detail := "Modelo não encontrado: " ++ req.model_path } ∧
    (∃ pre suf : String,
      "Modelo não encontrado: " ++ req.model_path = pre ++ req.model_path ++ suf) ∧
    (tts_inference env req).synthCalls = [] ∧
    (tts_inference env req).removes = [] ∧
    (tts_inference env req).fs = env.fs0 := by
  have hv : validate env req =
      .error { status := 404
               detail := "Modelo não encontrado: " ++ req.model_path } := by
    unfold validate
    rw [if_pos (by simp [h])]
  rw [validate_error_outcome hv]
  refine ⟨rfl, ⟨"Modelo não encontrado: ", "", ?_⟩, rfl, rfl, rfl⟩
  rw [String.append_empty]

/-- Witness for C1: concrete request against an empty filesystem. -/
theorem C1_missing_model_404_witness :
    (tts_inference envNoModel baseReq).result =
      .error { status := 404
               detail := "Modelo não encontrado: " ++ baseReq.model_path } ∧
    (∃ pre suf : String,
      "Modelo não encontrado: " ++ baseReq.model_path =
        pre ++ baseReq.model_path ++ suf) ∧
    (tts_inference envNoModel baseReq).synthCalls = [] ∧
    (tts_inference envNoModel baseReq).removes = [] ∧
    (tts_inference envNoModel baseReq).fs = envNoModel.fs0 :=
  C1_missing_model_404 envNoModel baseReq rfl

/-! ### C2: shape of a successful result -/

/-- Counterexample to C2 as stated: with `return_base64 = true` and a failing
final-file delete, the successful result carries the base64 payload AND a
file reference, and the final file is still on disk. -/
theorem C2_counterexample :
    baseReq.return_base64 = true ∧
    (okPart (tts_inference envNoRemove baseReq).result).map TTSResponse.output_file =
      some (some "f.ogg") ∧
    (okPart (tts_inference envNoRemove baseReq).result).map TTSResponse.base64 =
      some (some "B64") ∧
    (tts_inference envNoRemove baseReq).fs "o/f.ogg" = true := by
  refine ⟨rfl, ?_, ?_, ?_⟩ <;> decide

/-- C2 amended: on success with `return_base64 = true` the result always has
the base64 payload and no `output_path`; the file reference is absent and the
final file deleted exactly when the delete succeeds, while a failed delete
leaves the basename in `output_file` and the file on disk.  With
`return_base64 = false` the result has no payload, carries the file
reference, and the file remains on disk (unless the final path coincides
with the intermediate TTS path). -/
theorem C2_output_shape (env : Env) (req : TTSInferenceRequest) (r : TTSResponse)
    (h : (tts_inference env req).result = .ok r) :
    ∃ out : String,
      (req.return_base64 = true →
        r.base64 = some (env.fileB64 out) ∧ r.output_path = none ∧
        (env.removeOk out = true →
          r.output_file = none ∧ (tts_inference env req).fs out = false) ∧
        (env.removeOk out = false →
          r.output_file = (if out = "" then none else some (basename out)) ∧
          (out ≠ ttsOutputPath env → (tts_inference env req).fs out = true))) ∧
      (req.return_base64 = false →
        r.base64 = none ∧
        r.output_file = (if out = "" then none else some (basename out)) ∧
        r.output_path = (if out = "" then none else some out) ∧
        (out ≠ ttsOutputPath env → (tts_inference env req).fs out = true)) := by
  obtain ⟨msg, out, fs1, hv, hr, hfs, hEq⟩ := ok_inversion h
  rw [hEq] at h
  simp only [finishRequest] at h
  have hrr := Except.ok.inj h
  subst hrr
  refine ⟨out, ?_, ?_⟩
  · intro hb64
    refine ⟨by simp [hb64], by simp [hb64], ?_, ?_⟩
    · intro hok
      constructor
      · simp [hb64, hfs, hok, truthyS]
      · rw [hEq]
        simp only [finishRequest, hb64, hfs, hok, Bool.and_self, Bool.and_true,
          Bool.true_and, if_pos rfl]
        exact cleanupIntermediate_fs_false (by simp [removeFile])
    · intro hno
      constructor
      · by_cases hout : out = ""
        · subst hout; simp [hb64, hfs, hno, truthyS]
        · simp [hb64, hfs, hno, hout, truthyS]
      · intro hne
        rw [hEq]
        simp only [finishRequest, hb64, hfs, hno, Bool.and_false, Bool.and_true,
          Bool.true_and]
        rw [if_neg (by simp)]
        rw [cleanupIntermediate_fs_other hne]
        exact hfs
  · intro hb64
    have hrem : ∀ b c : Bool, (req.return_base64 && b && c) = false := by
      intro b c; rw [hb64]; simp
    refine ⟨by simp [hb64], ?_, ?_, ?_⟩
    · by_cases hout : out = ""
      · subst hout; simp [hrem, truthyS]
      · simp [hrem, hout, truthyS]
    · by_cases hout : out = ""
      · subst hout; simp [hrem, hb64, truthyS]
      · simp [hrem, hb64, hout, truthyS]
    · intro hne
      rw [hEq]
      simp only [finishRequest, hrem]
      rw [if_neg (by simp)]
      rw [cleanupIntermediate_fs_other hne]
      exact hfs

/-- Witness for the amended C2 at the baseline environment, where the final
delete succeeds. -/
theorem C2_output_shape_witness :
    ∃ out : String,
      (baseReq.return_base64 = true →
        rBase.base64 = some (baseEnv.fileB64 out) ∧
        rBase.output_path = none ∧
        (baseEnv.removeOk out = true →
          rBase.output_file = none ∧ (tts_inference baseEnv baseReq).fs out = false) ∧
        (baseEnv.removeOk out = false →
          rBase.output_file = (if out = "" then none else some (basename out)) ∧
          (out ≠ ttsOutputPath baseEnv → (tts_inference baseEnv baseReq).fs out = true))) ∧
      (baseReq.return_base64 = false →
        rBase.base64 = none ∧
        rBase.output_file = (if out = "" then none else some (basename out)) ∧
        rBase.output_path = (if out = "" then none else some out) ∧
        (out ≠ ttsOutputPath baseEnv → (tts_inference baseEnv baseReq).fs out = true)) :=
  C2_output_shape baseEnv baseReq rBase rfl

/-! ### C3: embedder-config check ordering -/

/-- Counterexample to C3 as stated: with `embedder_model = "custom"`, no
custom embedder path and a non-existent `model_path`, the handler returns the
404 NotFoundError of the model check, not a 400 ValidationError. -/
theorem C3_counterexample :
    reqCustomEmb.embedder_model = "custom" ∧
    reqCustomEmb.embedder_model_custom = none ∧
    envNoModel.fs0 reqCustomEmb.model_path = false ∧
    (tts_inference envNoModel reqCustomEmb).result =
      .error { status := 404, detail := "Modelo não encontrado: m.pth" } := by
  refine ⟨rfl, rfl, rfl, ?_⟩
  decide

/-- C3 amended: the embedder-config check runs after the model-path, index
and voice checks; with an existing model, a valid index resolution and a
catalogued voice, `embedder_model = "custom"` with an unset custom path
yields the 400 ValidationError before any pipeline call and without touching
the filesystem (when the model path does not exist, the 404 of C1 wins
instead). -/
theorem C3_embedder_check_after_model (env : Env) (req : TTSInferenceRequest)
    (hm : env.fs0 req.model_path = true)
    (hi : truthyS (resolvedIdx env req) = false ∨
      env.fs0 ((resolvedIdx env req).getD "") = true)
    (hvoice : env.voiceNames.contains req.tts_voice = true)
    (he : req.embedder_model = "custom")
    (hc : truthyS req.embedder_model_custom = false) :
    (tts_inference env req).result =
      .error { status := 400
               detail := "embedder_model_custom é obrigatório quando embedder_model=\x27custom\x27" } ∧
    (tts_inference env req).synthCalls = [] ∧
    (tts_inference env req).removes = [] ∧
    (tts_inference env req).fs = env.fs0 := by
  have h1 : ¬((!env.fs0 req.model_path) = true) := by simp [hm]
  have h2 : ¬((truthyS (resolvedIdx env req) &&
      !env.fs0 ((resolvedIdx env req).getD "")) = true) := by
    rcases hi with hi | hi <;> simp [hi]
  have h3 : ¬((!env.voiceNames.contains req.tts_voice) = true) := by
    rw [hvoice]; simp
  have h4 : (req.embedder_model == "custom" && !truthyS req.embedder_model_custom)
      = true := by simp [he, hc]
  have hval : validate env req =
      .error { status := 400
               detail := "embedder_model_custom é obrigatório quando embedder_model=\x27custom\x27" } := by
    unfold validate
    rw [if_neg h1, if_neg h2, if_neg h3, if_pos h4]
  rw [validate_error_outcome hval]
  exact ⟨rfl, rfl, rfl, rfl⟩

/-- Witness for the amended C3: baseline environment, custom embedder with no
custom path. -/
theorem C3_embedder_check_after_model_witness :
    (tts_inference baseEnv reqCustomEmb).result =
      .error { status := 400
               detail := "embedder_model_custom é obrigatório quando embedder_model=\x27custom\x27" } ∧
    (tts_inference baseEnv reqCustomEmb).synthCalls = [] ∧
    (tts_inference baseEnv reqCustomEmb).removes = [] ∧
    (tts_inference baseEnv reqCustomEmb).fs = baseEnv.fs0 :=
  C3_embedder_check_after_model baseEnv reqCustomEmb rfl (.inr rfl) rfl rfl rfl

/-! ### C4: text handed to the pipeline -/

/-- Counterexample to C4 as stated: through the full request shape, the text
argument of the pipeline call is the submitted text, unsanitized, which
differs from its sanitized form when a control character is present. -/
theorem C4_counterexample :
    (tts_inference baseEnv reqCtrlText).synthCalls.map RunArgs.tts_text =
      ["a\x01b"] ∧
    clean_text "a\x01b" = "ab" ∧
    ("a\x01b" : String) ≠ "ab" := by
  refine ⟨rfl, by decide, by decide⟩

/-- C4 amended: every pipeline call made by the full handler receives the
submitted text unchanged (no sanitation), while every pipeline call made by
the simplified handler receives the sanitized text. -/
theorem C4_pipeline_text (env : Env) (req : TTSInferenceRequest)
    (sreq : SimpleTTSRequest) :
    (∀ args ∈ (tts_inference env req).synthCalls, args.tts_text = req.text) ∧
    (∀ args ∈ (tts_generate_simple env sreq).synthCalls,
      args.tts_text = clean_text sreq.text) := by
  constructor
  · intro args h
    rw [synthCalls_mem h]
    rfl
  · intro args h
    unfold tts_generate_simple at h
    cases hn : normalizeSimple sreq with
    | error e => rw [hn] at h; simp at h
    | ok full =>
      rw [hn] at h
      rw [synthCalls_mem h]
      have hf : full.text = clean_text sreq.text := by
        simp only [normalizeSimple] at hn
        split at hn
        · simp at hn
        · split at hn
          · simp at hn
          · have := Except.ok.inj hn
            rw [← this]
      exact hf

/-- Witness for the amended C4 at the baseline environment. -/
theorem C4_pipeline_text_witness :
    (mkRunArgs baseEnv baseReq (resolvedIdx baseEnv baseReq)).tts_text =
      baseReq.text := by
  have hl : (tts_inference baseEnv baseReq).synthCalls =
      [mkRunArgs baseEnv baseReq (resolvedIdx baseEnv baseReq)] := rfl
  exact (C4_pipeline_text baseEnv baseReq sreqBlank).1 _
    (by rw [hl]; exact List.Mem.head _)

/-! ### C5: the simplified-request projection -/

/-- Counterexample to C5 as stated: a simplified request with the valid
format WAV but whitespace-only text is rejected with the text error instead
of being projected, so the projection is not total on valid formats. -/
theorem C5_counterexample :
    validFormats.contains (strUpper sreqBlank.output_format) = true ∧
    normalizeSimple sreqBlank =
      .error { status := 400, detail := "Texto inválido ou vazio após limpeza" } := by
  exact ⟨rfl, by decide⟩

/-- C5 amended: the simplified handler first rejects text that sanitizes to
the empty string (400), then validates the upper-cased output format against
the enumerated set (400 on failure), and for a valid format and non-empty
sanitized text deterministically projects the simplified request onto the
full shape with the fixed defaults, forwarding to the full handler. -/
theorem C5_normalize_projection (env : Env) (sreq : SimpleTTSRequest) :
    (clean_text sreq.text = "" →
      (tts_generate_simple env sreq).result =
        .error { status := 400, detail := "Texto inválido ou vazio após limpeza" } ∧
      (tts_generate_simple env sreq).synthCalls = []) ∧
    (clean_text sreq.text ≠ "" →
      validFormats.contains (strUpper sreq.output_format) = false →
      (tts_generate_simple env sreq).result =
        .error { status := 400
                 detail := "Formato inválido: " ++ strUpper sreq.output_format ++
                   ". Formatos válidos: WAV, MP3, FLAC, OGG, M4A" } ∧
      (tts_generate_simple env sreq).synthCalls = []) ∧
    (clean_text sreq.text ≠ "" →
      validFormats.contains (strUpper sreq.output_format) = true →
      tts_generate_simple env sreq = tts_inference env
        { text := clean_text sreq.text
          tts_voice := sreq.tts_voice
          model_path := sreq.model_path
          index_path := sreq.index_path
          tts_rate := sreq.tts_rate
          pitch := 0, index_rate := 0.75, volume_envelope := 1.0, protect := 0.5
          f0_method := "rmvpe", split_audio := false, f0_autotune := false
          f0_autotune_strength := 1.0, proposed_pitch := false
          proposed_pitch_threshold := 155.0, clean_audio := false
          clean_strength := 0.5
          export_format := strUpper sreq.output_format
          embedder_model := "contentvec", embedder_model_custom := none, sid := 0
          return_base64 := true, output_filename := none }) := by
  refine ⟨?_, ?_, ?_⟩
  · intro h
    have hn : normalizeSimple sreq =
        .error { status := 400, detail := "Texto inválido ou vazio após limpeza" } := by
      simp only [normalizeSimple]
      rw [if_pos h]
    unfold tts_generate_simple
    rw [hn]
    exact ⟨rfl, rfl⟩
  · intro h1 h2
    have hn : normalizeSimple sreq =
        .error { status := 400
                 detail := "Formato inválido: " ++ strUpper sreq.output_format ++
                   ". Formatos válidos: WAV, MP3, FLAC, OGG, M4A" } := by
      simp only [normalizeSimple]
      rw [if_neg h1, if_pos (by rw [h2]; rfl)]
    unfold tts_generate_simple
    rw [hn]
    exact ⟨rfl, rfl⟩
  · intro h1 h2
    have hn : normalizeSimple sreq = .ok
        { text := clean_text sreq.text
          tts_voice := sreq.tts_voice
          model_path := sreq.model_path
          index_path := sreq.index_path
          tts_rate := sreq.tts_rate
          pitch := 0, index_rate := 0.75, volume_envelope := 1.0, protect := 0.5
          f0_method := "rmvpe", split_audio := false, f0_autotune := false
          f0_autotune_strength := 1.0, proposed_pitch := false
          proposed_pitch_threshold := 155.0, clean_audio := false
          clean_strength := 0.5
          export_format := strUpper sreq.output_format
          embedder_model := "contentvec", embedder_model_custom := none, sid := 0
          return_base64 := true, output_filename := none } := by
      simp only [normalizeSimple]
      rw [if_neg h1, if_neg (by rw [h2]; simp)]
    unfold tts_generate_simple
    rw [hn]

/-- Witness for the amended C5: a lowercase `ogg` format is accepted and
projected onto the full shape. -/
theorem C5_normalize_projection_witness :
    tts_generate_simple baseEnv sreqOgg = tts_inference baseEnv
      { text := clean_text sreqOgg.text
        tts_voice := sreqOgg.tts_voice
        model_path := sreqOgg.model_path
        index_path := sreqOgg.index_path
        tts_rate := sreqOgg.tts_rate
        pitch := 0, index_rate := 0.75, volume_envelope := 1.0, protect := 0.5
        f0_method := "rmvpe", split_audio := false, f0_autotune := false
        f0_autotune_strength := 1.0, proposed_pitch := false
        proposed_pitch_threshold := 155.0, clean_audio := false
        clean_strength := 0.5
        export_format := strUpper sreqOgg.output_format
        embedder_model := "contentvec", embedder_model_custom := none, sid := 0
        return_base64 := true, output_filename := none } :=
  (C5_normalize_projection baseEnv sreqOgg).2.2 (by decide) (by decide)

/-! ### C7: cleanup behaviour -/

/-- Counterexample to C7 as stated: when the pipeline call raises, no
deletion of the intermediate TTS file is attempted even though the file is on
disk; and a failing cleanup deletion does change the returned result (the
final-file reference reappears in the base64 branch). -/
theorem C7_counterexample :
    (tts_inference envRaise baseReq).removes = [] ∧
    (tts_inference envRaise baseReq).fs (ttsOutputPath envRaise) = true ∧
    okPart (tts_inference envRaise baseReq).result = none ∧
    (okPart (tts_inference baseEnv baseReq).result).map TTSResponse.output_file =
      some none ∧
    (okPart (tts_inference envNoRemove baseReq).result).map TTSResponse.output_file =
      some (some "f.ogg") := by
  refine ⟨?_, ?_, ?_, ?_, ?_⟩ <;> decide

/-- C7 amended: whenever the pipeline call succeeds and its output file
exists, the request succeeds regardless of which removals fail — cleanup
failures never surface as an error and leave the success flag, message and
payload untouched — and after the call the intermediate TTS file can remain
on disk only if its deletion was attempted and failed; when the pipeline
call fails, no cleanup is attempted at all. -/
theorem C7_cleanup_swallowed (env : Env) (req : TTSInferenceRequest)
    (msg out : String) (fs1 : String → Bool)
    (hv : validate env req = .ok (resolvedIdx env req))
    (hr : env.runTts (mkRunArgs env req (resolvedIdx env req)) env.fs0 =
      (.ok (msg, out), fs1))
    (hfs : fs1 out = true) :
    okPart (tts_inference env req).result ≠ none ∧
    (okPart (tts_inference env req).result).map TTSResponse.success = some true ∧
    (okPart (tts_inference env req).result).map TTSResponse.message =
      some (if msg = "" then "✅ Áudio gerado com sucesso" else msg) ∧
    (okPart (tts_inference env req).result).map TTSResponse.base64 =
      some (if req.return_base64 then some (env.fileB64 out) else none) ∧
    ((tts_inference env req).fs (ttsOutputPath env) = true →
      ttsOutputPath env ∈ (tts_inference env req).removes ∧
      env.removeOk (ttsOutputPath env) = false) := by
  have hEq : tts_inference env req =
      finishRequest env req (resolvedIdx env req)
        (mkRunArgs env req (resolvedIdx env req)) fs1 msg out := by
    simp [tts_inference, hv, hr, hfs]
  refine ⟨?_, ?_, ?_, ?_, ?_⟩
  · rw [hEq]; simp [finishRequest, okPart]
  · rw [hEq]; simp [finishRequest, okPart]
  · rw [hEq]; simp [finishRequest, okPart]
  · rw [hEq]; simp [finishRequest, okPart]
  · intro h2
    rw [hEq] at h2 ⊢
    simp only [finishRequest] at h2 ⊢
    rw [cleanupIntermediate_fs_self] at h2
    have hparts := (Bool.and_eq_true _ _).mp h2
    have hrm : env.removeOk (ttsOutputPath env) = false := by
      have := hparts.2
      simpa using this
    constructor
    · rw [cleanupIntermediate_removes, if_pos hparts.1]
      exact List.mem_append_right _ (List.mem_singleton.mpr rfl)
    · exact hrm

/-- Witness for the amended C7 at the baseline environment. -/
theorem C7_cleanup_swallowed_witness :
    okPart (tts_inference baseEnv baseReq).result ≠ none ∧
    (okPart (tts_inference baseEnv baseReq).result).map TTSResponse.success =
      some true ∧
    (okPart (tts_inference baseEnv baseReq).result).map TTSResponse.message =
      some (if "m" = "" then "✅ Áudio gerado com sucesso" else "m") ∧
    (okPart (tts_inference baseEnv baseReq).result).map TTSResponse.base64 =
      some (if baseReq.return_base64 then some (baseEnv.fileB64 "o/f.ogg") else none) ∧
    ((tts_inference baseEnv baseReq).fs (ttsOutputPath baseEnv) = true →
      ttsOutputPath baseEnv ∈ (tts_inference baseEnv baseReq).removes ∧
      baseEnv.removeOk (ttsOutputPath baseEnv) = false) :=
  C7_cleanup_swallowed baseEnv baseReq "m" "o/f.ogg" fs1Base rfl rfl rfl

/-! ### C8: final output path construction -/

/-- C8: the output path handed to the pipeline is the output directory joined
with the caller-supplied filename, the export-format extension being appended
exactly when the filename ends in none of the recognized extensions; without
a (truthy) caller-supplied name it is the timestamp-derived name with the
export-format extension. -/
theorem C8_final_path (env : Env) (req : TTSInferenceRequest) (args : RunArgs)
    (h : args ∈ (tts_inference env req).synthCalls) :
    (∀ f : String, req.output_filename = some f → f ≠ "" →
      (hasKnownExt f = true →
        args.output_rvc_path = pathJoin env.outDir f) ∧
      (hasKnownExt f = false →
        args.output_rvc_path =
          pathJoin env.outDir (f ++ "." ++ strLower req.export_format))) ∧
    ((req.output_filename = none ∨ req.output_filename = some "") →
      args.output_rvc_path =
        pathJoin env.outDir
          ("tts_rvc_output_" ++ env.timestamp ++ "." ++ strLower req.export_format)) := by
  rw [synthCalls_mem h]
  constructor
  · intro f hf hne
    refine ⟨fun hext => ?_, fun hext => ?_⟩
    · simp only [mkRunArgs]
      have hrv : rvcFilename req env.timestamp = f := by
        simp [rvcFilename, hf, truthyS, hne, hext]
      rw [hrv]
    · simp only [mkRunArgs]
      have hrv : rvcFilename req env.timestamp =
          f ++ "." ++ strLower req.export_format := by
        simp [rvcFilename, hf, truthyS, hne, hext]
      rw [hrv]
  · intro hf
    simp only [mkRunArgs]
    have hrv : rvcFilename req env.timestamp =
        "tts_rvc_output_" ++ env.timestamp ++ "." ++ strLower req.export_format := by
      rcases hf with hf | hf <;> simp [rvcFilename, hf, truthyS]
    rw [hrv]

/-- Witness for C8: a supplied extension-less filename gets the lowercased
export format appended. -/
theorem C8_final_path_witness :
    (hasKnownExt "x" = true →
      (mkRunArgs baseEnv reqNamedOut (resolvedIdx baseEnv reqNamedOut)).output_rvc_path =
        pathJoin baseEnv.outDir "x") ∧
    (hasKnownExt "x" = false →
      (mkRunArgs baseEnv reqNamedOut (resolvedIdx baseEnv reqNamedOut)).output_rvc_path =
        pathJoin baseEnv.outDir ("x" ++ "." ++ strLower reqNamedOut.export_format)) := by
  have hl : (tts_inference baseEnv reqNamedOut).synthCalls =
      [mkRunArgs baseEnv reqNamedOut (resolvedIdx baseEnv reqNamedOut)] := rfl
  exact (C8_final_path baseEnv reqNamedOut _
    (by rw [hl]; exact List.Mem.head _)).1 "x" rfl (by decide)

/-! ### C9: voice catalog filtering -/

/-- Counterexample to C9 as stated: the filter matches against `ShortName`,
not the locale, so the filter string `Francisca` returns an entry whose
locale does not contain it. -/
theorem C9_counterexample :
    (list_voices [vFrancisca] (some "Francisca")).voices =
      [toVoiceInfo vFrancisca] ∧
    strContains (strLower vFrancisca.locale) (strLower "Francisca") = false := by
  exact ⟨by decide, by decide⟩

/-- C9 amended: a non-empty filter keeps exactly the entries whose ShortName
contains the filter case-insensitively, in catalog order (a sublist of the
full listing); a missing or empty filter returns every entry. -/
theorem C9_voice_filter (data : List VoiceRec) (s : String) (h : s ≠ "") :
    (list_voices data (some s)).voices =
      (data.filter
        (fun v => strContains (strLower v.shortName) (strLower s))).map toVoiceInfo ∧
    (list_voices data (some s)).voices.Sublist (list_voices data none).voices ∧
    (list_voices data none).voices = data.map toVoiceInfo ∧
    (list_voices data (some "")).voices = data.map toVoiceInfo ∧
    (list_voices data (some s)).total = (list_voices data (some s)).voices.length ∧
    (list_voices data (some s)).language_filter = some s := by
  refine ⟨by simp [list_voices, h], ?_, by simp [list_voices], by simp [list_voices],
    by simp [list_voices], by simp [list_voices]⟩
  simp only [list_voices, h, if_pos, ne_eq, not_false_iff]
  exact List.Sublist.map toVoiceInfo (List.filter_sublist data)

/-- Witness for the amended C9 with the filter `pt`. -/
theorem C9_voice_filter_witness :
    (list_voices [vFrancisca] (some "pt")).voices =
      ([vFrancisca].filter
        (fun v => strContains (strLower v.shortName) (strLower "pt"))).map toVoiceInfo ∧
    (list_voices [vFrancisca] (some "pt")).voices.Sublist
      (list_voices [vFrancisca] none).voices ∧
    (list_voices [vFrancisca] none).voices = [vFrancisca].map toVoiceInfo ∧
    (list_voices [vFrancisca] (some "")).voices = [vFrancisca].map toVoiceInfo ∧
    (list_voices [vFrancisca] (some "pt")).total =
      (list_voices [vFrancisca] (some "pt")).voices.length ∧
    (list_voices [vFrancisca] (some "pt")).language_filter = some "pt" :=
  C9_voice_filter [vFrancisca] "pt" (by decide)

/-! ### C10: the download endpoint -/

/-- C10: the download handler serves exactly the direct join of the output
directory with the filename whenever that path exists in the filesystem and
fails with 404 otherwise, always with media type `audio/wav`; no containment
check is made, and a filename with `..` segments resolves outside the output
directory. -/
theorem C10_download_direct_join (outDir : String) (fs : String → Bool)
    (filename : String) :
    (fs (pathJoin outDir filename) = true →
      download_audio outDir fs filename =
        .ok { path := pathJoin outDir filename, filename := filename
              media_type := "audio/wav" }) ∧
    (fs (pathJoin outDir filename) = false →
      download_audio outDir fs filename =
        .error { status := 404, detail := "Arquivo não encontrado: " ++ filename }) ∧
    resolveSegs (pathJoin "/app/Applio/assets/audios" "../../escape.wav") =
      ["app", "Applio", "escape.wav"] ∧
    staysUnder "/app/Applio/assets/audios"
      (pathJoin "/app/Applio/assets/audios" "../../escape.wav") = false := by
  refine ⟨?_, ?_, by decide, by decide⟩
  · intro h
    simp only [download_audio]
    rw [if_neg (by simp [h])]
  · intro h
    simp only [download_audio]
    rw [if_pos (by simp [h])]

/-- Witness for C10: one existing and one missing file. -/
theorem C10_download_direct_join_witness :
    download_audio "/d" fsDl "a.ogg" =
      .ok { path := pathJoin "/d" "a.ogg", filename := "a.ogg"
            media_type := "audio/wav" } ∧
    download_audio "/d" fsDl "b.ogg" =
      .error { status := 404, detail := "Arquivo não encontrado: " ++ "b.ogg" } :=
  ⟨(C10_download_direct_join "/d" fsDl "a.ogg").1 rfl,
   (C10_download_direct_join "/d" fsDl "b.ogg").2.1 rfl⟩
